import Mathlib

/-!
Verification development for the Cupana 16-bit machine emulator and its
assembler.  The definitions below are shallow embeddings of the Rust
sources:

* `Legacy`: the CPU core in `src/machine.rs` together with the flat memory
  it uses, `src/memory.rs` (a total four-region byte store).
* `Bus`: the region-routing memory bus generation, `src/memory/mod.rs`
  with `src/memory/rom.rs`, `src/memory/stack.rs`; the RAM component
  (`src/memory/ram.rs`) is absent from the sources and is modelled from
  the spec.
* `Casm`: the assembler in `src/casm/parser.rs` and `src/casm/mod.rs`.

Machine integers are modelled as `Nat` with explicit `% 2^16` (or
`% 2^8`) where the Rust code wraps; Rust panics (array indexing out of
bounds, arithmetic overflow in debug builds, division by zero,
`unreachable!`) are modelled as `Except` errors of a dedicated `Panic`
kind, kept apart from the program's own error values.
-/

namespace Cupana

/-- A Rust panic (process abort), as distinguished from an error value
returned by the program.  `arithOverflow` stands for a debug-build
integer-overflow abort, `indexOutOfBounds` for slice/array indexing out
of range, `unreachableBranch` for an `unreachable` arm, and
`unimplementedOpcode` for the explicit abort in `Machine::step`'s
catch-all arm. -/
inductive Panic where
  | romWrite
  | divByZero
  | arithOverflow
  | indexOutOfBounds
  | unreachableBranch
  | unimplementedOpcode
deriving DecidableEq, BEq

namespace Legacy

/- Constants from `src/memory.rs`. -/

def ROM_SIZE : Nat := 0x8000
def RAM_SIZE : Nat := 0x6000
def STACK_SIZE : Nat := 0x1000
def DEVICE_SIZE : Nat := 0x1000

def ROM_BASE : Nat := 0x0000
def RAM_BASE : Nat := ROM_BASE + ROM_SIZE
def STACK_BASE : Nat := RAM_BASE + RAM_SIZE
def DEVICE_BASE : Nat := STACK_BASE + STACK_SIZE

def ROM_END : Nat := ROM_BASE + ROM_SIZE - 1
def RAM_END : Nat := RAM_BASE + RAM_SIZE - 1
def STACK_END : Nat := STACK_BASE + STACK_SIZE - 1
def DEVICE_END : Nat := 0xFFFF

/-- The flat memory of `src/memory.rs`: four byte arrays, one per
region.  Arrays are modelled as total functions; every value stored
through `write_u8` is reduced `% 256`, mirroring the `u8` element
type. -/
structure Memory where
  rom : Nat → Nat
  ram : Nat → Nat
  stack : Nat → Nat
  device : Nat → Nat

def Memory.new : Memory :=
  { rom := fun _ => 0, ram := fun _ => 0, stack := fun _ => 0, device := fun _ => 0 }

/-- `Memory::read_u8`: the `match` over the four address ranges is total
for every 16-bit address.  The `% 256` encodes the `u8` return type. -/
def Memory.read_u8 (m : Memory) (address : Nat) : Nat :=
  if address ≤ ROM_END then m.rom (address - ROM_BASE) % 256
  else if address ≤ RAM_END then m.ram (address - RAM_BASE) % 256
  else if address ≤ STACK_END then m.stack (address - STACK_BASE) % 256
  else m.device (address - DEVICE_BASE) % 256

/-- `Memory::write_u8`: writing a ROM address panics
(`Cannot write to ROM address`); the other regions are updated. -/
def Memory.write_u8 (m : Memory) (address value : Nat) : Except Panic Memory :=
  if address ≤ ROM_END then .error .romWrite
  else if address ≤ RAM_END then
    .ok { m with ram := Function.update m.ram (address - RAM_BASE) (value % 256) }
  else if address ≤ STACK_END then
    .ok { m with stack := Function.update m.stack (address - STACK_BASE) (value % 256) }
  else
    .ok { m with device := Function.update m.device (address - DEVICE_BASE) (value % 256) }

/-- `Memory::read_u16`: little-endian composition of two byte reads; the
`address + 1` computation is a `u16` addition and aborts on overflow in
a debug build (address `0xFFFF`). -/
def Memory.read_u16 (m : Memory) (address : Nat) : Except Panic Nat :=
  if 0xFFFF < address + 1 then .error .arithOverflow
  else .ok (m.read_u8 (address + 1) <<< 8 ||| m.read_u8 address)

/-- `Memory::write_u16`: low byte at `address`, then high byte at
`address + 1` (same debug-overflow caveat as `read_u16`). -/
def Memory.write_u16 (m : Memory) (address value : Nat) : Except Panic Memory := do
  let m1 ← m.write_u8 address (value % 256)
  if 0xFFFF < address + 1 then .error .arithOverflow
  else m1.write_u8 (address + 1) ((value >>> 8) % 256)

/- `src/machine.rs`. -/

def PC : Nat := 14
def SP : Nat := 15

/-- Opcode enumeration of `src/machine.rs`. -/
inductive Opcode where
  | NOP | HLT | MOV | PHR | PLR
  | ADD | SUB | MUL | DIV | MOD
  | INC | DEC
  | AND | OR | XOR | SHL | SHR | NOT
  | CMP
  | JMP | JPC | JSB | RSB
  | CLI | SEI | RSI
  | NONE
deriving DecidableEq, BEq

/-- `impl From<u8> for Opcode` (the argument is the opcode byte already
shifted right by 3 in `Machine::step`). -/
def Opcode.ofByte (value : Nat) : Opcode :=
  if value = 0x00 then .NOP
  else if value = 0x01 then .HLT
  else if value = 0x02 then .MOV
  else if value = 0x03 then .PHR
  else if value = 0x04 then .PLR
  else if value = 0x05 then .ADD
  else if value = 0x06 then .SUB
  else if value = 0x07 then .MUL
  else if value = 0x08 then .DIV
  else if value = 0x09 then .MOD
  else if value = 0x0A then .INC
  else if value = 0x0B then .DEC
  else if value = 0x0C then .AND
  else if value = 0x0D then .OR
  else if value = 0x0E then .XOR
  else if value = 0x0F then .NOT
  else if value = 0x10 then .SHL
  else if value = 0x11 then .SHR
  else if value = 0x12 then .CMP
  else if value = 0x13 then .JMP
  else if value = 0x14 then .JPC
  else if value = 0x15 then .JSB
  else if value = 0x16 then .RSB
  else if value = 0x17 then .CLI
  else if value = 0x18 then .SEI
  else if value = 0x19 then .RSI
  else .NONE

/-- `JumpMode` of `src/machine.rs` (selector for the `JPC` opcode). -/
inductive JumpMode where
  | zero | notZero | negative | notNegative | overflow | notOverflow | none
deriving DecidableEq, BEq

def JumpMode.ofByte (value : Nat) : JumpMode :=
  if value = 0 then .zero
  else if value = 1 then .notZero
  else if value = 2 then .negative
  else if value = 3 then .notNegative
  else if value = 4 then .overflow
  else if value = 5 then .notOverflow
  else .none

/- Flag masks (`enum Flag` in `src/machine.rs`). -/

def flagZero : Nat := 0x0001
def flagNegative : Nat := 0x0002
def flagOverflow : Nat := 0x0004
def flagInterruptEnabled : Nat := 0x0008
def flagInterruptPending : Nat := 0x0010
def flagHalt : Nat := 0x0080

/-- `fn extract_registers_from_byte`: high nibble, low nibble. -/
def extract_registers_from_byte (byte : Nat) : Nat × Nat :=
  ((byte >>> 4) &&& 0xF, byte &&& 0xF)

/-- The CPU of `src/machine.rs`: a 16-entry register file (`PC` is slot
14, `SP` slot 15) and a 16-bit flag word. -/
structure Machine where
  registers : Nat → Nat
  flags : Nat

/-- `Machine::new`: zeroed registers except `PC := ROM_BASE` and
`SP := STACK_BASE`. -/
def Machine.new : Machine :=
  { registers := fun i => if i = PC then ROM_BASE else if i = SP then STACK_BASE else 0
    flags := 0 }

/-- `Machine::reset`: overwrites the register file with zeros and clears
the flag word.  It takes no memory argument and reads no reset vector. -/
def Machine.reset (_m : Machine) : Machine :=
  { registers := fun _ => 0, flags := 0 }

def Machine.get_flag (m : Machine) (flag : Nat) : Bool :=
  (m.flags &&& flag) != 0

def Machine.set_flag (m : Machine) (flag : Nat) (value : Bool) : Machine :=
  if value then { m with flags := m.flags ||| flag }
  else { m with flags := m.flags &&& (flag ^^^ 0xFFFF) }

def Machine.halted (m : Machine) : Bool :=
  m.get_flag flagHalt

/-- Checked register-file access: Rust array indexing with an index
`≥ 16` aborts. -/
def regGet (m : Machine) (i : Nat) : Except Panic Nat :=
  if i < 16 then .ok (m.registers i) else .error .indexOutOfBounds

def regSet (m : Machine) (i v : Nat) : Except Panic Machine :=
  if i < 16 then .ok { m with registers := Function.update m.registers i v }
  else .error .indexOutOfBounds

def setPC (m : Machine) (v : Nat) : Machine :=
  { m with registers := Function.update m.registers PC v }

/-- `Machine::fetch_u8`: read the byte at `PC`, then advance `PC` by one
(wrapping). -/
def fetch_u8 (m : Machine) (mem : Memory) : Nat × Machine :=
  (mem.read_u8 (m.registers PC),
    { m with registers := Function.update m.registers PC ((m.registers PC + 1) % 65536) })

/-- `Machine::fetch_u16`: advance `PC` by two (wrapping), read the word
at the old `PC`. -/
def fetch_u16 (m : Machine) (mem : Memory) : Except Panic (Nat × Machine) := do
  let v ← mem.read_u16 (m.registers PC)
  .ok (v, { m with registers := Function.update m.registers PC ((m.registers PC + 2) % 65536) })

/-- `Machine::push_u16`: write the word at `SP`, then `SP := SP + 2`
(wrapping).  The Rust function's `Result` is always `Ok`; the only
failure mode is the panic inside `write_u16`. -/
def push_u16 (m : Machine) (mem : Memory) (value : Nat) : Except Panic (Machine × Memory) := do
  let mem2 ← mem.write_u16 (m.registers SP) value
  .ok ({ m with registers := Function.update m.registers SP ((m.registers SP + 2) % 65536) },
    mem2)

/-- `Machine::pull_u16`: `SP := SP - 2` (wrapping), then read the word at
the new `SP`. -/
def pull_u16 (m : Machine) (mem : Memory) : Except Panic (Nat × Machine) := do
  let v ← mem.read_u16 ((m.registers SP + 65534) % 65536)
  .ok (v, { m with registers :=
    Function.update m.registers SP ((m.registers SP + 65534) % 65536) })

/-- `Machine::update_flags`. -/
def update_flags (m : Machine) (result : Nat) (overflow : Bool) : Machine :=
  ((m.set_flag flagZero (result == 0)).set_flag flagNegative
    ((result &&& 0x8000) != 0)).set_flag flagOverflow overflow

/- `u16::overflowing_*` on values below `2 ^ 16`. -/

def overflowing_add (a b : Nat) : Nat × Bool :=
  ((a + b) % 65536, decide (65536 ≤ a + b))

def overflowing_sub (a b : Nat) : Nat × Bool :=
  ((a + 65536 - b) % 65536, decide (a < b))

def overflowing_mul (a b : Nat) : Nat × Bool :=
  ((a * b) % 65536, decide (65536 ≤ a * b))

def overflowing_neg (a : Nat) : Nat × Bool :=
  ((65536 - a) % 65536, a != 0)

/-- Apply an ALU result: update flags, then write the destination
register (`Machine::update_flags` followed by the register store). -/
def applyAlu (m : Machine) (dest : Nat) (r : Nat × Bool) : Except Panic Machine :=
  regSet (update_flags m r.1 r.2) dest r.1

/-- Condition test for `JPC`; `JumpMode::None` is an `unreachable` arm. -/
def jumpCond (m : Machine) (jm : JumpMode) : Except Panic Bool :=
  match jm with
  | .zero => .ok (m.get_flag flagZero)
  | .notZero => .ok (!m.get_flag flagZero)
  | .negative => .ok (m.get_flag flagNegative)
  | .notNegative => .ok (!m.get_flag flagNegative)
  | .overflow => .ok (m.get_flag flagOverflow)
  | .notOverflow => .ok (!m.get_flag flagOverflow)
  | .none => .error .unreachableBranch

/-- `Machine::step`, translated arm for arm.  The opcode is the fetched
byte shifted right by 3; bit 2 selects the byte-sized variant (`b`);
the low two bits are the addressing mode.  Shift amounts `≥ 16` and the
zero-divisor `overflowing_div` are debug-build aborts. -/
def step (m0 : Machine) (mem0 : Memory) : Except Panic (Machine × Memory) := do
  let (byte, mA) := fetch_u8 m0 mem0
  let opcode := Opcode.ofByte (byte >>> 3)
  let b := (byte >>> 2) &&& 1
  let mode := byte &&& 0b11
  let (dest, orig, lit16, lit8, m) ←
    if ([Opcode.PHR, Opcode.PLR, Opcode.INC, Opcode.DEC,
         Opcode.NOT, Opcode.JMP, Opcode.JSB]).contains opcode then
      if b = 0 then
        if mode = 0 then
          let (d, m2) := fetch_u8 mA mem0
          Except.ok (d, 0, 0, 0, m2)
        else if mode = 1 then do
          let (v, m2) ← fetch_u16 mA mem0
          Except.ok (0, 0, v, 0, m2)
        else Except.error Panic.unreachableBranch
      else
        if mode = 0 then
          let (d, m2) := fetch_u8 mA mem0
          Except.ok (d, 0, 0, 0, m2)
        else if mode = 1 then
          let (v, m2) := fetch_u8 mA mem0
          Except.ok (0, 0, 0, v, m2)
        else Except.error Panic.unreachableBranch
    else if ([Opcode.NOP, Opcode.HLT, Opcode.RSB,
              Opcode.CLI, Opcode.SEI, Opcode.RSI]).contains opcode then
      Except.ok (0, 0, 0, 0, mA)
    else
      if b = 0 then
        if mode = 1 then do
          let (d, m2) := fetch_u8 mA mem0
          let (v, m3) ← fetch_u16 m2 mem0
          Except.ok (d, 0, v, 0, m3)
        else
          let (x, m2) := fetch_u8 mA mem0
          let dr := extract_registers_from_byte x
          Except.ok (dr.1, dr.2, 0, 0, m2)
      else
        if mode = 1 then
          let (d, m2) := fetch_u8 mA mem0
          let (v, m3) := fetch_u8 m2 mem0
          Except.ok (d, 0, 0, v, m3)
        else if mode = 3 then Except.error Panic.unreachableBranch
        else
          let (x, m2) := fetch_u8 mA mem0
          let dr := extract_registers_from_byte x
          Except.ok (dr.1, dr.2, 0, 0, m2)
  match opcode with
  | .NOP => .ok (m, mem0)
  | .HLT => .ok (m.set_flag flagHalt true, mem0)
  | .MOV =>
    if b = 0 then
      if mode = 0 then do
        let v ← regGet m orig
        let m2 ← regSet m dest v
        .ok (m2, mem0)
      else if mode = 1 then do
        let m2 ← regSet m dest lit16
        .ok (m2, mem0)
      else if mode = 2 then do
        let addr ← regGet m dest
        let v ← regGet m orig
        let mem2 ← mem0.write_u16 addr v
        .ok (m, mem2)
      else do
        let addr ← regGet m orig
        let v ← mem0.read_u16 addr
        let m2 ← regSet m dest v
        .ok (m2, mem0)
    else
      if mode = 0 then do
        let v ← regGet m orig
        let m2 ← regSet m dest (v % 256)
        .ok (m2, mem0)
      else if mode = 1 then do
        let m2 ← regSet m dest lit8
        .ok (m2, mem0)
      else if mode = 2 then do
        let addr ← regGet m dest
        let v ← regGet m orig
        let mem2 ← mem0.write_u8 addr (v % 256)
        .ok (m, mem2)
      else .error .unreachableBranch
  | .PHR => do
    let v ← regGet m dest
    push_u16 m mem0 v
  | .PLR => do
    let (v, m2) ← pull_u16 m mem0
    let m3 ← regSet m2 dest v
    .ok (m3, mem0)
  | .ADD =>
    if b = 0 then
      if mode = 0 then do
        let vd ← regGet m dest
        let vo ← regGet m orig
        let m2 ← applyAlu m dest (overflowing_add vd vo)
        .ok (m2, mem0)
      else if mode = 1 then do
        let vd ← regGet m dest
        let m2 ← applyAlu m dest (overflowing_add vd lit16)
        .ok (m2, mem0)
      else .error .unreachableBranch
    else
      if mode = 0 then do
        let vd ← regGet m dest
        let vo ← regGet m orig
        let m2 ← applyAlu m dest (overflowing_add (vd &&& 0xFF) (vo &&& 0xFF))
        .ok (m2, mem0)
      else if mode = 1 then do
        let vd ← regGet m dest
        let m2 ← applyAlu m dest (overflowing_add vd lit8)
        .ok (m2, mem0)
      else .error .unreachableBranch
  | .SUB =>
    if b = 0 then
      if mode = 0 then do
        let vd ← regGet m dest
        let vo ← regGet m orig
        let m2 ← applyAlu m dest (overflowing_sub vd vo)
        .ok (m2, mem0)
      else if mode = 1 then do
        let vd ← regGet m dest
        let m2 ← applyAlu m dest (overflowing_sub vd lit16)
        .ok (m2, mem0)
      else .error .unreachableBranch
    else
      if mode = 0 then do
        let vd ← regGet m dest
        let vo ← regGet m orig
        let m2 ← applyAlu m dest (overflowing_sub (vd &&& 0xFF) (vo &&& 0xFF))
        .ok (m2, mem0)
      else if mode = 1 then do
        let vd ← regGet m dest
        let m2 ← applyAlu m dest (overflowing_sub (vd &&& 0xFF) lit8)
        .ok (m2, mem0)
      else .error .unreachableBranch
  | .MUL =>
    if b = 0 then
      if mode = 0 then do
        let vd ← regGet m dest
        let vo ← regGet m orig
        let m2 ← applyAlu m dest (overflowing_mul vd vo)
        .ok (m2, mem0)
      else if mode = 1 then do
        let vd ← regGet m dest
        let m2 ← applyAlu m dest (overflowing_mul vd lit16)
        .ok (m2, mem0)
      else .error .unreachableBranch
    else
      if mode = 0 then do
        let vd ← regGet m dest
        let vo ← regGet m orig
        let m2 ← applyAlu m dest (overflowing_mul (vd &&& 0xFF) (vo &&& 0xFF))
        .ok (m2, mem0)
      else if mode = 1 then do
        let vd ← regGet m dest
        let m2 ← applyAlu m dest (overflowing_mul (vd &&& 0xFF) lit8)
        .ok (m2, mem0)
      else .error .unreachableBranch
  | .DIV =>
    if b = 0 then
      if mode = 0 then do
        let vd ← regGet m dest
        let vo ← regGet m orig
        if vo = 0 then .error .divByZero
        else do
          let m2 ← applyAlu m dest (vd / vo, false)
          .ok (m2, mem0)
      else if mode = 1 then do
        let vd ← regGet m dest
        if lit16 = 0 then .error .divByZero
        else do
          let m2 ← applyAlu m dest (vd / lit16, false)
          .ok (m2, mem0)
      else .error .unreachableBranch
    else
      if mode = 0 then do
        let vd ← regGet m dest
        let vo ← regGet m orig
        if vo &&& 0xFF = 0 then .error .divByZero
        else do
          let m2 ← applyAlu m dest ((vd &&& 0xFF) / (vo &&& 0xFF), false)
          .ok (m2, mem0)
      else if mode = 1 then do
        let vd ← regGet m dest
        if lit8 = 0 then .error .divByZero
        else do
          let m2 ← applyAlu m dest ((vd &&& 0xFF) / lit8, false)
          .ok (m2, mem0)
      else .error .unreachableBranch
  | .MOD =>
    if b = 0 then
      if mode = 0 then do
        let vd ← regGet m dest
        let vo ← regGet m orig
        if vo = 0 then .error .divByZero
        else do
          let m2 ← applyAlu m dest (vd % vo, false)
          .ok (m2, mem0)
      else if mode = 1 then do
        let vd ← regGet m dest
        if lit16 = 0 then .error .divByZero
        else do
          let m2 ← applyAlu m dest (vd % lit16, false)
          .ok (m2, mem0)
      else .error .unreachableBranch
    else
      if mode = 0 then do
        let vd ← regGet m dest
        let vo ← regGet m orig
        if vo &&& 0xFF = 0 then .error .divByZero
        else do
          let m2 ← applyAlu m dest ((vd &&& 0xFF) % (vo &&& 0xFF), false)
          .ok (m2, mem0)
      else if mode = 1 then do
        let vd ← regGet m dest
        if lit8 = 0 then .error .divByZero
        else do
          let m2 ← applyAlu m dest ((vd &&& 0xFF) % lit8, false)
          .ok (m2, mem0)
      else .error .unreachableBranch
  | .INC => do
    let vd ← regGet m dest
    let m2 ← applyAlu m dest (overflowing_add vd 1)
    .ok (m2, mem0)
  | .DEC => do
    let vd ← regGet m dest
    let m2 ← applyAlu m dest (overflowing_sub vd 1)
    .ok (m2, mem0)
  | .AND =>
    if b = 0 then
      if mode = 0 then do
        let vd ← regGet m dest
        let vo ← regGet m orig
        let m2 ← applyAlu m dest (vd &&& vo, false)
        .ok (m2, mem0)
      else if mode = 1 then do
        let vd ← regGet m dest
        let m2 ← applyAlu m dest (vd &&& lit16, false)
        .ok (m2, mem0)
      else .error .unreachableBranch
    else
      if mode = 0 then do
        let vd ← regGet m dest
        let vo ← regGet m orig
        let m2 ← applyAlu m dest ((vd &&& 0xFF) &&& (vo &&& 0xFF), false)
        .ok (m2, mem0)
      else if mode = 1 then do
        let vd ← regGet m dest
        let m2 ← applyAlu m dest ((vd &&& 0xFF) &&& lit8, false)
        .ok (m2, mem0)
      else .error .unreachableBranch
  | .OR =>
    if b = 0 then
      if mode = 0 then do
        let vd ← regGet m dest
        let vo ← regGet m orig
        let m2 ← applyAlu m dest (vd ||| vo, false)
        .ok (m2, mem0)
      else if mode = 1 then do
        let vd ← regGet m dest
        let m2 ← applyAlu m dest (vd ||| lit16, false)
        .ok (m2, mem0)
      else .error .unreachableBranch
    else
      if mode = 0 then do
        let vd ← regGet m dest
        let vo ← regGet m orig
        let m2 ← applyAlu m dest ((vd &&& 0xFF) ||| (vo &&& 0xFF), false)
        .ok (m2, mem0)
      else if mode = 1 then do
        let vd ← regGet m dest
        let m2 ← applyAlu m dest ((vd &&& 0xFF) ||| lit8, false)
        .ok (m2, mem0)
      else .error .unreachableBranch
  | .XOR =>
    if b = 0 then
      if mode = 0 then do
        let vd ← regGet m dest
        let vo ← regGet m orig
        let m2 ← applyAlu m dest (vd ^^^ vo, false)
        .ok (m2, mem0)
      else if mode = 1 then do
        let vd ← regGet m dest
        let m2 ← applyAlu m dest (vd ^^^ lit16, false)
        .ok (m2, mem0)
      else .error .unreachableBranch
    else
      if mode = 0 then do
        let vd ← regGet m dest
        let vo ← regGet m orig
        let m2 ← applyAlu m dest ((vd &&& 0xFF) ^^^ (vo &&& 0xFF), false)
        .ok (m2, mem0)
      else if mode = 1 then do
        let vd ← regGet m dest
        let m2 ← applyAlu m dest ((vd &&& 0xFF) ^^^ lit8, false)
        .ok (m2, mem0)
      else .error .unreachableBranch
  | .NOT => do
    let vd ← regGet m dest
    let m2 ← applyAlu m dest (overflowing_neg vd)
    .ok (m2, mem0)
  | .SHL =>
    if b = 0 then
      if mode = 0 then do
        let vd ← regGet m dest
        let vo ← regGet m orig
        if 16 ≤ vo then .error .arithOverflow
        else do
          let m2 ← applyAlu m dest ((vd <<< vo) % 65536, false)
          .ok (m2, mem0)
      else if mode = 1 then do
        let vd ← regGet m dest
        if 16 ≤ lit16 then .error .arithOverflow
        else do
          let m2 ← applyAlu m dest ((vd <<< lit16) % 65536, false)
          .ok (m2, mem0)
      else .error .unreachableBranch
    else
      if mode = 0 then do
        let vd ← regGet m dest
        let vo ← regGet m orig
        if 16 ≤ vo &&& 0xFF then .error .arithOverflow
        else do
          let m2 ← applyAlu m dest (((vd &&& 0xFF) <<< (vo &&& 0xFF)) % 65536, false)
          .ok (m2, mem0)
      else if mode = 1 then do
        let vd ← regGet m dest
        if 16 ≤ lit8 then .error .arithOverflow
        else do
          let m2 ← applyAlu m dest (((vd &&& 0xFF) <<< lit8) % 65536, false)
          .ok (m2, mem0)
      else .error .unreachableBranch
  | .SHR =>
    if b = 0 then
      if mode = 0 then do
        let vd ← regGet m dest
        let vo ← regGet m orig
        if 16 ≤ vo then .error .arithOverflow
        else do
          let m2 ← applyAlu m dest (vd >>> vo, false)
          .ok (m2, mem0)
      else if mode = 1 then do
        let vd ← regGet m dest
        if 16 ≤ lit16 then .error .arithOverflow
        else do
          let m2 ← applyAlu m dest (vd >>> lit16, false)
          .ok (m2, mem0)
      else .error .unreachableBranch
    else
      if mode = 0 then do
        let vd ← regGet m dest
        let vo ← regGet m orig
        if 16 ≤ vo &&& 0xFF then .error .arithOverflow
        else do
          let m2 ← applyAlu m dest ((vd &&& 0xFF) >>> (vo &&& 0xFF), false)
          .ok (m2, mem0)
      else if mode = 1 then do
        let vd ← regGet m dest
        if 16 ≤ lit8 then .error .arithOverflow
        else do
          let m2 ← applyAlu m dest ((vd &&& 0xFF) >>> lit8, false)
          .ok (m2, mem0)
      else .error .unreachableBranch
  | .CMP =>
    if b = 0 then
      if mode = 0 then do
        let vd ← regGet m dest
        let vo ← regGet m orig
        let r := overflowing_sub vd vo
        .ok (update_flags m r.1 r.2, mem0)
      else if mode = 1 then do
        let vd ← regGet m dest
        let r := overflowing_sub vd lit16
        .ok (update_flags m r.1 r.2, mem0)
      else .error .unreachableBranch
    else
      if mode = 0 then do
        let vd ← regGet m dest
        let vo ← regGet m orig
        let r := overflowing_sub (vd &&& 0xFF) (vo &&& 0xFF)
        .ok (update_flags m r.1 r.2, mem0)
      else if mode = 1 then do
        let vd ← regGet m dest
        let r := overflowing_sub (vd &&& 0xFF) lit8
        .ok (update_flags m r.1 r.2, mem0)
      else .error .unreachableBranch
  | .JMP =>
    if mode = 0 then do
      let v ← regGet m orig
      .ok (setPC m v, mem0)
    else if mode = 1 then
      .ok (setPC m lit16, mem0)
    else .error .unreachableBranch
  | .JPC => do
    let c ← jumpCond m (JumpMode.ofByte dest)
    if mode = 0 then
      if c then do
        let v ← regGet m orig
        .ok (setPC m v, mem0)
      else .ok (m, mem0)
    else if mode = 1 then
      if c then .ok (setPC m lit16, mem0)
      else .ok (m, mem0)
    else .error .unreachableBranch
  | .JSB => do
    let (mp, memp) ← push_u16 m mem0 (m.registers PC)
    if mode = 0 then do
      let v ← regGet mp dest
      .ok (setPC mp v, memp)
    else if mode = 1 then
      .ok (setPC mp lit16, memp)
    else .error .unreachableBranch
  | .RSB => do
    let (v, m2) ← pull_u16 m mem0
    .ok (setPC m2 v, mem0)
  | .CLI => .ok (m.set_flag flagInterruptEnabled false, mem0)
  | .SEI => .ok (m.set_flag flagInterruptEnabled true, mem0)
  | .RSI => do
    let (v, m2) ← pull_u16 m mem0
    let m3 := setPC m2 v
    let (f, m4) ← pull_u16 m3 mem0
    .ok ({ m4 with flags := f }, mem0)
  | .NONE => .error .unimplementedOpcode

end Legacy

namespace Bus

/- Constants from `src/memory/mod.rs`. -/

def ROM_BASE : Nat := 0x0000
def ROM_SIZE : Nat := 0x8000
def ROM_END : Nat := ROM_BASE + ROM_SIZE - 1

def RAM_BASE : Nat := 0x8000
def RAM_SIZE : Nat := 0x6000
def RAM_END : Nat := RAM_BASE + RAM_SIZE - 1

def STACK_BASE : Nat := 0xE000
def STACK_SIZE : Nat := 0x1000
def STACK_END : Nat := STACK_BASE + STACK_SIZE - 1

def MMIO_BASE : Nat := 0xF000
def MMIO_END : Nat := 0xFFFF

/-- `MemoryError` of `src/error.rs`. -/
inductive MemoryError where
  | invalidRamAddress (addr : Nat)
  | invalidRomSize (size : Nat)
  | writeNotPermitted (addr : Nat)
deriving DecidableEq, BEq

/-- Outcome channel of a bus operation: either a `MemoryError` value
returned by the Rust code, or a panic (array indexing out of bounds). -/
inductive BusError where
  | mem (e : MemoryError)
  | panic (p : Panic)
deriving DecidableEq, BEq

/-- `u16::saturating_add(1)` as used by the straddle checks. -/
def satAdd1 (addr : Nat) : Nat := min (addr + 1) 0xFFFF

/-- `Rom` of `src/memory/rom.rs`: a `0x8000`-byte array.  Accesses index
`self.data` directly, so an offset past the end is a panic. -/
structure Rom where
  data : Nat → Nat

def Rom.new : Rom := { data := fun _ => 0 }

def Rom.read_u8 (r : Rom) (addr : Nat) : Except BusError Nat :=
  if addr < ROM_SIZE then .ok (r.data addr % 256)
  else .error (.panic .indexOutOfBounds)

def Rom.write_u8 (_r : Rom) (addr : Nat) (_val : Nat) : Except BusError Rom :=
  .error (.mem (.writeNotPermitted addr))

def Rom.read_u16 (r : Rom) (addr : Nat) : Except BusError Nat :=
  if addr < ROM_SIZE then
    if addr + 1 < ROM_SIZE then
      .ok ((r.data (addr + 1) % 256) <<< 8 ||| r.data addr % 256)
    else .error (.panic .indexOutOfBounds)
  else .error (.panic .indexOutOfBounds)

def Rom.write_u16 (_r : Rom) (addr : Nat) (_val : Nat) : Except BusError Rom :=
  .error (.mem (.writeNotPermitted addr))

/-- `Stack` of `src/memory/stack.rs`: a `0x1000`-byte array; all four
accessors index `self.data` without a bounds check of their own, so an
offset at or past `0x1000` panics. -/
structure Stack where
  data : Nat → Nat

def Stack.new : Stack := { data := fun _ => 0 }

def Stack.read_u8 (s : Stack) (addr : Nat) : Except BusError Nat :=
  if addr < STACK_SIZE then .ok (s.data addr % 256)
  else .error (.panic .indexOutOfBounds)

def Stack.write_u8 (s : Stack) (addr val : Nat) : Except BusError Stack :=
  if addr < STACK_SIZE then
    .ok { s with data := Function.update s.data addr (val % 256) }
  else .error (.panic .indexOutOfBounds)

def Stack.read_u16 (s : Stack) (addr : Nat) : Except BusError Nat :=
  if addr < STACK_SIZE then
    if addr + 1 < STACK_SIZE then
      .ok ((s.data (addr + 1) % 256) <<< 8 ||| s.data addr % 256)
    else .error (.panic .indexOutOfBounds)
  else .error (.panic .indexOutOfBounds)

def Stack.write_u16 (s : Stack) (addr val : Nat) : Except BusError Stack :=
  if addr < STACK_SIZE then
    let s1 : Stack := { s with data := Function.update s.data addr (val % 256) }
    if addr + 1 < STACK_SIZE then
      .ok { s1 with data := Function.update s1.data (addr + 1) ((val >>> 8) % 256) }
    else .error (.panic .indexOutOfBounds)
  else .error (.panic .indexOutOfBounds)

/-- Modelled from the spec: `src/memory/ram.rs` is declared by
`mod ram;` in `src/memory/mod.rs` but the file is missing from the
sources.  Per the spec the RAM region is a plain read/write byte store
of `RAM_SIZE` bytes addressed by offset, with the same array-backed
shape as the sibling `Rom` and `Stack` components. -/
structure Ram where
  data : Nat → Nat

def Ram.new : Ram := { data := fun _ => 0 }

def Ram.read_u8 (r : Ram) (addr : Nat) : Except BusError Nat :=
  if addr < RAM_SIZE then .ok (r.data addr % 256)
  else .error (.panic .indexOutOfBounds)

def Ram.write_u8 (r : Ram) (addr val : Nat) : Except BusError Ram :=
  if addr < RAM_SIZE then
    .ok { r with data := Function.update r.data addr (val % 256) }
  else .error (.panic .indexOutOfBounds)

def Ram.read_u16 (r : Ram) (addr : Nat) : Except BusError Nat :=
  if addr < RAM_SIZE then
    if addr + 1 < RAM_SIZE then
      .ok ((r.data (addr + 1) % 256) <<< 8 ||| r.data addr % 256)
    else .error (.panic .indexOutOfBounds)
  else .error (.panic .indexOutOfBounds)

def Ram.write_u16 (r : Ram) (addr val : Nat) : Except BusError Ram :=
  if addr < RAM_SIZE then
    let r1 : Ram := { r with data := Function.update r.data addr (val % 256) }
    if addr + 1 < RAM_SIZE then
      .ok { r1 with data := Function.update r1.data (addr + 1) ((val >>> 8) % 256) }
    else .error (.panic .indexOutOfBounds)
  else .error (.panic .indexOutOfBounds)

/-- An MMIO device (`trait Device` of `src/devices/mod.rs`).  The bus
stores trait objects; here a device is modelled as a byte store over its
inclusive global range `[base, endAddr]` (`aabb`), with the trait's
default little-endian word composition. -/
structure Device where
  base : Nat
  endAddr : Nat
  data : Nat → Nat

def Device.read_u8 (d : Device) (off : Nat) : Except BusError Nat :=
  .ok (d.data off % 256)

def Device.write_u8 (d : Device) (off val : Nat) : Device :=
  { d with data := Function.update d.data off (val % 256) }

def Device.read_u16 (d : Device) (off : Nat) : Except BusError Nat := do
  let lo ← d.read_u8 off
  let hi ← d.read_u8 (off + 1)
  .ok (hi <<< 8 ||| lo)

/-- `MemoryBus::find_device`: linear scan for the first device whose
inclusive range contains `addr`. -/
def find_device (devices : List Device) (addr : Nat) : Option Device :=
  devices.find? (fun d => decide (d.base ≤ addr) && decide (addr ≤ d.endAddr))

/-- Write one byte through the first device containing `addr` (the
`borrow_mut` write in the bus device branch). -/
def write_device : List Device → Nat → Nat → Option (List Device)
  | [], _, _ => none
  | d :: rest, addr, val =>
    if d.base ≤ addr ∧ addr ≤ d.endAddr then
      some (d.write_u8 (addr - d.base) val :: rest)
    else (write_device rest addr val).map (fun ds => d :: ds)

/-- `MemoryBus` of `src/memory/mod.rs`. -/
structure MemoryBus where
  rom : Rom
  ram : Ram
  stack : Stack
  devices : List Device

def MemoryBus.new : MemoryBus :=
  { rom := Rom.new, ram := Ram.new, stack := Stack.new, devices := [] }

/-- `MemoryBus::read_u8`. -/
def MemoryBus.read_u8 (b : MemoryBus) (addr : Nat) : Except BusError Nat :=
  if ROM_BASE ≤ addr ∧ addr ≤ ROM_END then b.rom.read_u8 addr
  else if RAM_BASE ≤ addr ∧ addr ≤ RAM_END then b.ram.read_u8 (addr - RAM_BASE)
  else if STACK_BASE ≤ addr ∧ addr ≤ STACK_END then b.stack.read_u8 (addr - STACK_BASE)
  else
    match find_device b.devices addr with
    | some d => d.read_u8 (addr - d.base)
    | none => .error (.mem (.invalidRamAddress addr))

/-- `MemoryBus::read_u16`: the ROM and RAM branches check that
`addr.saturating_add(1)` still lies in the region, the stack branch
checks only `addr` itself, and the device branch rejects a word that
runs past the device's end. -/
def MemoryBus.read_u16 (b : MemoryBus) (addr : Nat) : Except BusError Nat :=
  if ROM_BASE ≤ addr ∧ satAdd1 addr ≤ ROM_END then b.rom.read_u16 addr
  else if RAM_BASE ≤ addr ∧ satAdd1 addr ≤ RAM_END then b.ram.read_u16 (addr - RAM_BASE)
  else if STACK_BASE ≤ addr ∧ addr ≤ STACK_END then b.stack.read_u16 (addr - STACK_BASE)
  else
    match find_device b.devices addr with
    | some d =>
      if d.endAddr < satAdd1 addr then .error (.mem (.invalidRamAddress addr))
      else d.read_u16 (addr - d.base)
    | none => .error (.mem (.invalidRamAddress addr))

/-- `MemoryBus::write_u8`: any ROM address is rejected with
`WriteNotPermitted` before anything is touched. -/
def MemoryBus.write_u8 (b : MemoryBus) (addr val : Nat) : Except BusError MemoryBus :=
  if ROM_BASE ≤ addr ∧ addr ≤ ROM_END then .error (.mem (.writeNotPermitted addr))
  else if RAM_BASE ≤ addr ∧ addr ≤ RAM_END then do
    let r ← b.ram.write_u8 (addr - RAM_BASE) val
    .ok { b with ram := r }
  else if STACK_BASE ≤ addr ∧ addr ≤ STACK_END then do
    let s ← b.stack.write_u8 (addr - STACK_BASE) val
    .ok { b with stack := s }
  else
    match write_device b.devices addr val with
    | some ds => .ok { b with devices := ds }
    | none => .error (.mem (.writeNotPermitted addr))

/-- `MemoryBus::write_u16`: same region routing as `read_u16`; the
device branch stores only the low byte (`val as u8`). -/
def MemoryBus.write_u16 (b : MemoryBus) (addr val : Nat) : Except BusError MemoryBus :=
  if ROM_BASE ≤ addr ∧ satAdd1 addr ≤ ROM_END then .error (.mem (.writeNotPermitted addr))
  else if RAM_BASE ≤ addr ∧ satAdd1 addr ≤ RAM_END then do
    let r ← b.ram.write_u16 (addr - RAM_BASE) val
    .ok { b with ram := r }
  else if STACK_BASE ≤ addr ∧ addr ≤ STACK_END then do
    let s ← b.stack.write_u16 (addr - STACK_BASE) val
    .ok { b with stack := s }
  else
    match write_device b.devices addr (val % 256) with
    | some ds => .ok { b with devices := ds }
    | none => .error (.mem (.writeNotPermitted addr))

end Bus

namespace Casm

/-- `Operand` of `src/casm/parser.rs`. -/
inductive Operand where
  | register (r : Nat)
  | registerIndirect (r : Nat)
  | literal (v : Nat)
  | alias (n : String)
  | labelRef (n : String)
  | charString (s : String)
deriving DecidableEq, BEq

/-- `Instruction` of `src/casm/parser.rs`. -/
inductive Instruction where
  | nop
  | hlt
  | mov (dest src : Operand)
  | phr (op : Operand)
  | plr (op : Operand)
  | add (op1 op2 : Operand)
  | sub (op1 op2 : Operand)
  | mul (op1 op2 : Operand)
  | div (op1 op2 : Operand)
  | mod (op1 op2 : Operand)
  | inc (op : Operand)
  | dec (op : Operand)
  | and (op1 op2 : Operand)
  | or (op1 op2 : Operand)
  | xor (op1 op2 : Operand)
  | not (op : Operand)
  | cmp (op1 op2 : Operand)
  | jmp (op : Operand)
  | jz (op : Operand)
  | jnz (op : Operand)
  | jn (op : Operand)
  | jnn (op : Operand)
  | jc (op : Operand)
  | jnc (op : Operand)
  | jsb (op : Operand)
  | rsb
  | cli
  | sei
  | rsi
deriving DecidableEq, BEq

/-- `Statement` of `src/casm/parser.rs`. -/
inductive Statement where
  | instruction (i : Instruction)
  | label (n : String)
  | aliasDeclaration (n : String) (op : Operand)
  | directive (n : String) (op : Operand)
deriving DecidableEq, BEq

/-- `Program` of `src/casm/parser.rs`; the `IndexMap`s are modelled as
insertion-ordered association lists looked up by first key match. -/
structure Program where
  statements : List Statement
  aliases : List (String × Operand)
  labels : List (String × Nat)

/-- The token stream of `src/casm/lexer.rs` (comments are skipped by the
lexer and never surface). -/
inductive Token where
  | decimalLiteral (v : Nat)
  | hexLiteral (v : Nat)
  | register (r : Nat)
  | registerIndirect (r : Nat)
  | alias (n : String)
  | label (n : String)
  | charString (s : String)
  | nop | hlt | mov | phr | plr
  | add | sub | mul | div | mod
  | inc | dec
  | and | or | xor | not
  | cmp
  | jmp | jz | jnz | jn | jnn | jc | jnc | jsb
  | rsb | cli | sei | rsi
  | directive (n : String)
  | identifier (n : String)
  | newline
deriving DecidableEq, BEq

/-- `AssembleError` of `src/error.rs`, with each distinct
`GenericError` message of `src/casm/mod.rs` given its own constructor,
plus the panic channel for the unchecked output-buffer indexing. -/
inductive AssembleError where
  | invalidInstruction
  | parseError
  | duplicateLabel
  | unknownAliasSize
  | depthExceededSize
  | charStringOperand
  | invalidOperandForSize
  | unknownAlias
  | unknownLabel
  | depthExceeded
  | invalidRegister
  | expectedRegister
  | expectedLiteral
  | invalidCombination
  | panic (p : Panic)
deriving DecidableEq, BEq

/-- `Parser::parse_operand` over the remaining token stream. -/
def parse_operand : List Token → Except AssembleError (Operand × List Token)
  | Token.register r :: rest => .ok (.register r, rest)
  | Token.registerIndirect r :: rest => .ok (.registerIndirect r, rest)
  | Token.decimalLiteral v :: rest => .ok (.literal v, rest)
  | Token.hexLiteral v :: rest => .ok (.literal v, rest)
  | Token.alias n :: rest => .ok (.alias n, rest)
  | Token.identifier n :: rest => .ok (.labelRef n, rest)
  | Token.charString s :: rest => .ok (.charString s, rest)
  | _ => .error .parseError

/-- `Parser::parse_instruction`.  Note the `Token::Plr` arm: the source
builds `Instruction::Phr(src)`, not `Instruction::Plr(src)`. -/
def parse_instruction : List Token → Except AssembleError (Instruction × List Token)
  | Token.nop :: rest => .ok (.nop, rest)
  | Token.hlt :: rest => .ok (.hlt, rest)
  | Token.mov :: rest => do
    let (dest, r1) ← parse_operand rest
    let (src, r2) ← parse_operand r1
    .ok (.mov dest src, r2)
  | Token.phr :: rest => do
    let (src, r1) ← parse_operand rest
    .ok (.phr src, r1)
  | Token.plr :: rest => do
    let (src, r1) ← parse_operand rest
    .ok (.phr src, r1)
  | Token.add :: rest => do
    let (op1, r1) ← parse_operand rest
    let (op2, r2) ← parse_operand r1
    .ok (.add op1 op2, r2)
  | Token.sub :: rest => do
    let (op1, r1) ← parse_operand rest
    let (op2, r2) ← parse_operand r1
    .ok (.sub op1 op2, r2)
  | Token.mul :: rest => do
    let (op1, r1) ← parse_operand rest
    let (op2, r2) ← parse_operand r1
    .ok (.mul op1 op2, r2)
  | Token.div :: rest => do
    let (op1, r1) ← parse_operand rest
    let (op2, r2) ← parse_operand r1
    .ok (.div op1 op2, r2)
  | Token.mod :: rest => do
    let (op1, r1) ← parse_operand rest
    let (op2, r2) ← parse_operand r1
    .ok (.mod op1 op2, r2)
  | Token.inc :: rest => do
    let (op, r1) ← parse_operand rest
    .ok (.inc op, r1)
  | Token.dec :: rest => do
    let (op, r1) ← parse_operand rest
    .ok (.dec op, r1)
  | Token.and :: rest => do
    let (op1, r1) ← parse_operand rest
    let (op2, r2) ← parse_operand r1
    .ok (.and op1 op2, r2)
  | Token.or :: rest => do
    let (op1, r1) ← parse_operand rest
    let (op2, r2) ← parse_operand r1
    .ok (.or op1 op2, r2)
  | Token.xor :: rest => do
    let (op1, r1) ← parse_operand rest
    let (op2, r2) ← parse_operand r1
    .ok (.xor op1 op2, r2)
  | Token.not :: rest => do
    let (op, r1) ← parse_operand rest
    .ok (.not op, r1)
  | Token.cmp :: rest => do
    let (op1, r1) ← parse_operand rest
    let (op2, r2) ← parse_operand r1
    .ok (.cmp op1 op2, r2)
  | Token.jmp :: rest => do
    let (op, r1) ← parse_operand rest
    .ok (.jmp op, r1)
  | Token.jz :: rest => do
    let (op, r1) ← parse_operand rest
    .ok (.jz op, r1)
  | Token.jnz :: rest => do
    let (op, r1) ← parse_operand rest
    .ok (.jnz op, r1)
  | Token.jn :: rest => do
    let (op, r1) ← parse_operand rest
    .ok (.jn op, r1)
  | Token.jnn :: rest => do
    let (op, r1) ← parse_operand rest
    .ok (.jnn op, r1)
  | Token.jc :: rest => do
    let (op, r1) ← parse_operand rest
    .ok (.jc op, r1)
  | Token.jnc :: rest => do
    let (op, r1) ← parse_operand rest
    .ok (.jnc op, r1)
  | Token.jsb :: rest => do
    let (op, r1) ← parse_operand rest
    .ok (.jsb op, r1)
  | Token.rsb :: rest => .ok (.rsb, rest)
  | Token.cli :: rest => .ok (.cli, rest)
  | Token.sei :: rest => .ok (.sei, rest)
  | Token.rsi :: rest => .ok (.rsi, rest)
  | _ => .error .invalidInstruction

/-- Helper enum `ResolvedOperandType` of `src/casm/mod.rs`. -/
inductive ResolvedOperandType where
  | registerLike
  | literalLike
deriving DecidableEq, BEq

/-- `IndexMap::get` on the alias map: first entry with a matching key. -/
def lookupOperand (al : List (String × Operand)) (n : String) : Option Operand :=
  (al.find? (fun p => p.1 == n)).map (fun p => p.2)

/-- `IndexMap::get` on the label map. -/
def lookupLabel (lb : List (String × Nat)) (n : String) : Option Nat :=
  (lb.find? (fun p => p.1 == n)).map (fun p => p.2)

def MAX_ALIAS_DEPTH : Nat := 10

/-- `name.to_lowercase()` on the directive name.  (`String.toLower`
itself is byte-position recursion that the kernel cannot evaluate, so
the same function is computed structurally over the character list.) -/
def toLowerString (s : String) : String := String.mk (s.data.map Char.toLower)

/-- Recursion core of `Assembler::resolve_operand_for_size`: the source
recurses with a rising `depth` counter and refuses any call at
`depth > MAX_ALIAS_DEPTH`; here the remaining budget
`MAX_ALIAS_DEPTH + 1 - depth` is the structural fuel, so budget `0` is
exactly the source's depth-exceeded error. -/
def resolveForSizeGo (al : List (String × Operand)) :
    Nat → Operand → Except AssembleError ResolvedOperandType
  | 0, _ => .error .depthExceededSize
  | fuel + 1, operand =>
    match operand with
    | .register _ => .ok .registerLike
    | .registerIndirect _ => .ok .registerLike
    | .literal _ => .ok .literalLike
    | .labelRef _ => .ok .literalLike
    | .alias n =>
      match lookupOperand al n with
      | some resolved => resolveForSizeGo al fuel resolved
      | none => .error .unknownAliasSize
    | .charString _ => .error .charStringOperand

/-- `Assembler::resolve_operand_for_size` (first pass), with the depth
argument of the source translated into remaining budget. -/
def resolve_operand_for_size (al : List (String × Operand)) (operand : Operand)
    (depth : Nat) : Except AssembleError ResolvedOperandType :=
  resolveForSizeGo al (MAX_ALIAS_DEPTH + 1 - depth) operand

/-- `Assembler::get_instruction_size`. -/
def get_instruction_size (i : Instruction) (al : List (String × Operand)) :
    Except AssembleError Nat :=
  match i with
  | .nop | .hlt | .rsb | .rsi | .cli | .sei => .ok 1
  | .inc op | .dec op | .not op => do
    let t ← resolve_operand_for_size al op 0
    match t with
    | .registerLike => .ok (1 + 1)
    | _ => .error .invalidOperandForSize
  | .mov dest src => do
    let td ← resolve_operand_for_size al dest 0
    let ts ← resolve_operand_for_size al src 0
    match td, ts with
    | .registerLike, .registerLike => .ok (1 + 1 + 1)
    | .registerLike, .literalLike => .ok (1 + 1 + 2)
    | .literalLike, .registerLike => .ok (1 + 2 + 1)
    | .literalLike, .literalLike => .ok (1 + 2 + 2)
  | .add op1 op2 | .mul op1 op2 | .cmp op1 op2 => do
    let t1 ← resolve_operand_for_size al op1 0
    let t2 ← resolve_operand_for_size al op2 0
    match t1, t2 with
    | .registerLike, .registerLike => .ok (1 + 1 + 1)
    | .registerLike, .literalLike => .ok (1 + 1 + 2)
    | _, _ => .error .invalidOperandForSize
  | .sub op1 op2 | .div op1 op2 | .mod op1 op2 => do
    let t1 ← resolve_operand_for_size al op1 0
    let t2 ← resolve_operand_for_size al op2 0
    match t1, t2 with
    | .registerLike, .registerLike => .ok (1 + 1 + 1)
    | .registerLike, .literalLike => .ok (1 + 1 + 2)
    | _, _ => .error .invalidOperandForSize
  | .and op1 op2 | .or op1 op2 | .xor op1 op2 => do
    let t1 ← resolve_operand_for_size al op1 0
    let t2 ← resolve_operand_for_size al op2 0
    match t1, t2 with
    | .registerLike, .registerLike => .ok (1 + 1 + 1)
    | .registerLike, .literalLike => .ok (1 + 1 + 2)
    | _, _ => .error .invalidOperandForSize
  | .jmp op | .jz op | .jnz op | .jn op | .jnn op | .jc op | .jnc op => do
    let t ← resolve_operand_for_size al op 0
    match t with
    | .literalLike => .ok (1 + 2)
    | .registerLike => .ok (1 + 1)
  | .jsb op => do
    let t ← resolve_operand_for_size al op 0
    match t with
    | .literalLike => .ok (1 + 2)
    | _ => .error .invalidOperandForSize
  | .phr op => do
    let t ← resolve_operand_for_size al op 0
    match t with
    | .registerLike => .ok (1 + 1)
    | _ => .error .invalidOperandForSize
  | .plr op => do
    let t ← resolve_operand_for_size al op 0
    match t with
    | .registerLike => .ok (1 + 1)
    | _ => .error .invalidOperandForSize

/-- The `Assembler` state of `src/casm/mod.rs`: a fixed
`[u8; 0x8000]` output image with an emission cursor. -/
structure Assembler where
  output : Nat → Nat
  current_address : Nat

def Assembler.new : Assembler := { output := fun _ => 0, current_address := 0 }

/-- `Assembler::emit_byte`: `self.output[self.current_address as usize] = byte`
indexes the `0x8000`-byte array with the cursor unchecked; a cursor at
or past `0x8000` panics. -/
def emit_byte (a : Assembler) (byte : Nat) : Except AssembleError Assembler :=
  if a.current_address < 0x8000 then
    .ok { output := Function.update a.output a.current_address (byte % 256)
          current_address := a.current_address + 1 }
  else .error (.panic .indexOutOfBounds)

/-- `Assembler::emit_u16`: low byte first. -/
def emit_u16 (a : Assembler) (value : Nat) : Except AssembleError Assembler := do
  let a1 ← emit_byte a (value &&& 0xFF)
  emit_byte a1 ((value >>> 8) &&& 0xFF)

/-- Recursion core of `Assembler::resolve_operand_fully`, with the same
budget encoding of the source's depth counter as `resolveForSizeGo`. -/
def resolveFullyGo (al : List (String × Operand)) (lb : List (String × Nat)) :
    Nat → Operand → Except AssembleError Operand
  | 0, _ => .error .depthExceeded
  | fuel + 1, operand =>
    match operand with
    | .alias n =>
      match lookupOperand al n with
      | some resolved => resolveFullyGo al lb fuel resolved
      | none => .error .unknownAlias
    | .labelRef n =>
      match lookupLabel lb n with
      | some addr => .ok (.literal addr)
      | none => .error .unknownLabel
    | other => .ok other

/-- `Assembler::resolve_operand_fully` (second pass): chases aliases
with the same depth cap and maps a `LabelRef` through the label map. -/
def resolve_operand_fully (al : List (String × Operand)) (lb : List (String × Nat))
    (operand : Operand) (depth : Nat) : Except AssembleError Operand :=
  resolveFullyGo al lb (MAX_ALIAS_DEPTH + 1 - depth) operand

/-- `Assembler::emit_operand_reg`. -/
def emit_operand_reg (a : Assembler) (operand : Operand) (al : List (String × Operand))
    (lb : List (String × Nat)) : Except AssembleError Assembler := do
  let resolved ← resolve_operand_fully al lb operand 0
  match resolved with
  | .register r | .registerIndirect r =>
    if 15 < r then .error .invalidRegister else emit_byte a r
  | _ => .error .expectedRegister

/-- `Assembler::emit_operand_literal`. -/
def emit_operand_literal (a : Assembler) (operand : Operand) (al : List (String × Operand))
    (lb : List (String × Nat)) : Except AssembleError Assembler := do
  let resolved ← resolve_operand_fully al lb operand 0
  match resolved with
  | .literal v => emit_u16 a v
  | _ => .error .expectedLiteral

/-- `Assembler::generate_mov`. -/
def generate_mov (a : Assembler) (dest src : Operand) (al : List (String × Operand))
    (lb : List (String × Nat)) : Except AssembleError Assembler := do
  let rd ← resolve_operand_fully al lb dest 0
  let rs ← resolve_operand_fully al lb src 0
  match rd, rs with
  | .register _, .register _ => do
    let a1 ← emit_byte a 0x10
    let a2 ← emit_operand_reg a1 rd al lb
    emit_operand_reg a2 rs al lb
  | .register _, .literal _ => do
    let a1 ← emit_byte a 0x11
    let a2 ← emit_operand_reg a1 rd al lb
    emit_operand_literal a2 rs al lb
  | .register _, .registerIndirect _ => do
    let a1 ← emit_byte a 0x12
    let a2 ← emit_operand_reg a1 rd al lb
    emit_operand_reg a2 rs al lb
  | .literal _, .register _ => do
    let a1 ← emit_byte a 0x13
    let a2 ← emit_operand_literal a1 rd al lb
    emit_operand_reg a2 rs al lb
  | .literal _, .literal _ => do
    let a1 ← emit_byte a 0x14
    let a2 ← emit_operand_literal a1 rd al lb
    emit_operand_literal a2 rs al lb
  | .registerIndirect _, .register _ => do
    let a1 ← emit_byte a 0x15
    let a2 ← emit_operand_reg a1 rd al lb
    emit_operand_reg a2 rs al lb
  | .registerIndirect _, .literal _ => do
    let a1 ← emit_byte a 0x16
    let a2 ← emit_operand_reg a1 rd al lb
    emit_operand_literal a2 rs al lb
  | _, _ => .error .invalidCombination

/-- `Assembler::generate_binary_arithmetic_logic`. -/
def generate_binary_arithmetic_logic (a : Assembler) (reg_reg_opcode reg_lit_opcode : Nat)
    (op1 op2 : Operand) (al : List (String × Operand)) (lb : List (String × Nat)) :
    Except AssembleError Assembler := do
  let r1 ← resolve_operand_fully al lb op1 0
  let r2 ← resolve_operand_fully al lb op2 0
  match r1, r2 with
  | .register r1v, .register r2v => do
    let a1 ← emit_byte a reg_reg_opcode
    let a2 ← emit_byte a1 r1v
    emit_byte a2 r2v
  | .register r1v, .literal l2v => do
    let a1 ← emit_byte a reg_lit_opcode
    let a2 ← emit_byte a1 r1v
    emit_u16 a2 l2v
  | _, _ => .error .invalidCombination

/-- `Assembler::generate_cmp`. -/
def generate_cmp (a : Assembler) (op1 op2 : Operand) (al : List (String × Operand))
    (lb : List (String × Nat)) : Except AssembleError Assembler := do
  let r1 ← resolve_operand_fully al lb op1 0
  let r2 ← resolve_operand_fully al lb op2 0
  match r1, r2 with
  | .register r1v, .register r2v => do
    let a1 ← emit_byte a 0x40
    let a2 ← emit_byte a1 r1v
    emit_byte a2 r2v
  | .register r1v, .literal l2v => do
    let a1 ← emit_byte a 0x41
    let a2 ← emit_byte a1 r1v
    emit_u16 a2 l2v
  | _, _ => .error .invalidCombination

/-- `Assembler::generate_jump`. -/
def generate_jump (a : Assembler) (lit_opcode reg_opcode : Nat) (op : Operand)
    (al : List (String × Operand)) (lb : List (String × Nat)) :
    Except AssembleError Assembler := do
  let resolved ← resolve_operand_fully al lb op 0
  match resolved with
  | .literal addr => do
    let a1 ← emit_byte a lit_opcode
    emit_u16 a1 addr
  | .register reg_idx =>
    if 16 ≤ reg_idx then .error .invalidRegister
    else do
      let a1 ← emit_byte a reg_opcode
      emit_byte a1 reg_idx
  | .registerIndirect _ => .error .invalidCombination
  | _ => .error .invalidCombination

/-- `Assembler::generate_instruction` (note `Div` is emitted with the
pair `0x26`/`0x28` exactly as in the source). -/
def generate_instruction (a : Assembler) (i : Instruction) (al : List (String × Operand))
    (lb : List (String × Nat)) : Except AssembleError Assembler :=
  match i with
  | .nop => emit_byte a 0x00
  | .hlt => emit_byte a 0x01
  | .mov dest src => generate_mov a dest src al lb
  | .phr op => do
    let a1 ← emit_byte a 0x17
    emit_operand_reg a1 op al lb
  | .plr op => do
    let a1 ← emit_byte a 0x18
    emit_operand_reg a1 op al lb
  | .add op1 op2 => generate_binary_arithmetic_logic a 0x20 0x21 op1 op2 al lb
  | .sub op1 op2 => generate_binary_arithmetic_logic a 0x22 0x23 op1 op2 al lb
  | .mul op1 op2 => generate_binary_arithmetic_logic a 0x24 0x25 op1 op2 al lb
  | .div op1 op2 => generate_binary_arithmetic_logic a 0x26 0x28 op1 op2 al lb
  | .mod op1 op2 => generate_binary_arithmetic_logic a 0x28 0x29 op1 op2 al lb
  | .inc op => do
    let a1 ← emit_byte a 0x2A
    emit_operand_reg a1 op al lb
  | .dec op => do
    let a1 ← emit_byte a 0x2B
    emit_operand_reg a1 op al lb
  | .and op1 op2 => generate_binary_arithmetic_logic a 0x30 0x31 op1 op2 al lb
  | .or op1 op2 => generate_binary_arithmetic_logic a 0x32 0x33 op1 op2 al lb
  | .xor op1 op2 => generate_binary_arithmetic_logic a 0x34 0x35 op1 op2 al lb
  | .not op => do
    let a1 ← emit_byte a 0x36
    emit_operand_reg a1 op al lb
  | .cmp op1 op2 => generate_cmp a op1 op2 al lb
  | .jmp op => generate_jump a 0x50 0x51 op al lb
  | .jz op => generate_jump a 0x52 0x53 op al lb
  | .jnz op => generate_jump a 0x54 0x55 op al lb
  | .jn op => generate_jump a 0x56 0x57 op al lb
  | .jnn op => generate_jump a 0x58 0x59 op al lb
  | .jc op => generate_jump a 0x5A 0x5B op al lb
  | .jnc op => generate_jump a 0x5C 0x5D op al lb
  | .jsb op => do
    let a1 ← emit_byte a 0x5E
    emit_operand_literal a1 op al lb
  | .rsb => emit_byte a 0x5F
  | .cli => emit_byte a 0x60
  | .sei => emit_byte a 0x61
  | .rsi => emit_byte a 0x62

/-- `Assembler::first_pass` walk: tracks the cursor (a `u16`, whose
debug-build overflow on `+=` is the panic case) and collects labels,
rejecting duplicates. -/
def first_pass_aux (al : List (String × Operand)) :
    List Statement → Nat → List (String × Nat) →
    Except AssembleError (List (String × Nat))
  | [], _, labels => .ok labels
  | stmt :: rest, address, labels =>
    match stmt with
    | .label n =>
      if (lookupLabel labels n).isSome then .error .duplicateLabel
      else first_pass_aux al rest address (labels ++ [(n, address)])
    | .directive name value =>
      if toLowerString name == ("org") then
        match value with
        | .literal lit => first_pass_aux al rest lit labels
        | _ => first_pass_aux al rest address labels
      else if toLowerString name == ("word") then
        match value with
        | .labelRef _ =>
          if 0xFFFF < address + 2 then .error (.panic .arithOverflow)
          else first_pass_aux al rest (address + 2) labels
        | .literal _ =>
          if 0xFFFF < address + 2 then .error (.panic .arithOverflow)
          else first_pass_aux al rest (address + 2) labels
        | .charString s =>
          if 0xFFFF < address + 2 * s.length then .error (.panic .arithOverflow)
          else first_pass_aux al rest (address + 2 * s.length) labels
        | _ => first_pass_aux al rest address labels
      else first_pass_aux al rest address labels
    | .instruction i => do
      let sz ← get_instruction_size i al
      if 0xFFFF < address + sz then .error (.panic .arithOverflow)
      else first_pass_aux al rest (address + sz) labels
    | .aliasDeclaration _ _ => first_pass_aux al rest address labels

def first_pass (p : Program) : Except AssembleError Program := do
  let labels ← first_pass_aux p.aliases p.statements 0 p.labels
  .ok { p with labels := labels }

/-- Emit one word per character of a `.word` string (the character is
cast `as u16`). -/
def emit_word_string (a : Assembler) : List Char → Except AssembleError Assembler
  | [] => .ok a
  | c :: cs => do
    let a1 ← emit_u16 a (c.toNat % 65536)
    emit_word_string a1 cs

/-- `Assembler::second_pass` walk: instructions are generated, `.org`
repositions the cursor, `.word` emits data; an unknown label under
`.word` is silently skipped (the `if let` in the source). -/
def second_pass_aux (al : List (String × Operand)) (lb : List (String × Nat)) :
    List Statement → Assembler → Except AssembleError Assembler
  | [], a => .ok a
  | stmt :: rest, a =>
    match stmt with
    | .instruction i => do
      let a2 ← generate_instruction a i al lb
      second_pass_aux al lb rest a2
    | .directive name value =>
      if toLowerString name == ("org") then
        match value with
        | .literal lit => second_pass_aux al lb rest { a with current_address := lit }
        | _ => second_pass_aux al lb rest a
      else if toLowerString name == ("word") then
        match value with
        | .literal lit => do
          let a2 ← emit_u16 a lit
          second_pass_aux al lb rest a2
        | .labelRef label =>
          match lookupLabel lb label with
          | some addr => do
            let a2 ← emit_u16 a addr
            second_pass_aux al lb rest a2
          | none => second_pass_aux al lb rest a
        | .charString s => do
          let a2 ← emit_word_string a s.toList
          second_pass_aux al lb rest a2
        | _ => second_pass_aux al lb rest a
      else second_pass_aux al lb rest a
    | _ => second_pass_aux al lb rest a

def second_pass (p : Program) (a : Assembler) : Except AssembleError Assembler :=
  second_pass_aux p.aliases p.labels p.statements a

/-- `Assembler::assemble_string` after parsing: run both passes over a
fresh assembler and return its state (the `0x8000`-byte output image
and final cursor). -/
def assemble (p : Program) : Except AssembleError Assembler := do
  let p2 ← first_pass p
  second_pass p2 Assembler.new

end Casm

/-! ## General helper lemmas -/

/-- Recombining the two little-endian bytes: for a low byte below 256,
the bitwise or of the shifted high byte with it is plain addition. -/
theorem lorBytes (hi lo : Nat) (h : lo < 256) : (hi <<< 8) ||| lo = 256 * hi + lo := by
  have h2 : lo < 2 ^ 8 := by
    have : (2 : Nat) ^ 8 = 256 := by norm_num
    omega
  rw [Nat.shiftLeft_eq, Nat.mul_comm hi (2 ^ 8), ← Nat.mul_add_lt_is_or h2 hi]

/-- A 16-bit value is recovered from its truncated high and low bytes. -/
theorem recomposeBytes (v : Nat) (h : v < 65536) :
    256 * ((v >>> 8) % 256) + v % 256 = v := by
  rw [Nat.shiftRight_eq_div_pow]
  have h2 : (2 : Nat) ^ 8 = 256 := by norm_num
  rw [h2]
  omega

namespace Legacy

/-- `Memory::write_u8` on a stack-region address takes the stack branch. -/
theorem write_u8_stack (mem : Memory) (a v : Nat) (h1 : 0xDFFF < a) (h2 : a ≤ 0xEFFF) :
    Memory.write_u8 mem a v =
      .ok { mem with stack := Function.update mem.stack (a - 0xE000) (v % 256) } := by
  unfold Memory.write_u8
  rw [if_neg (by simp only [ROM_END, ROM_BASE, ROM_SIZE]; omega),
    if_neg (by simp only [RAM_END, RAM_BASE, RAM_SIZE, ROM_BASE, ROM_SIZE]; omega),
    if_pos (by simp only [STACK_END, STACK_BASE, RAM_BASE, RAM_SIZE, ROM_BASE, ROM_SIZE,
      STACK_SIZE]; omega)]
  rfl

/-- `Memory::read_u8` on a stack-region address takes the stack branch. -/
theorem read_u8_stack (mem : Memory) (a : Nat) (h1 : 0xDFFF < a) (h2 : a ≤ 0xEFFF) :
    Memory.read_u8 mem a = mem.stack (a - 0xE000) % 256 := by
  unfold Memory.read_u8
  rw [if_neg (by simp only [ROM_END, ROM_BASE, ROM_SIZE]; omega),
    if_neg (by simp only [RAM_END, RAM_BASE, RAM_SIZE, ROM_BASE, ROM_SIZE]; omega),
    if_pos (by simp only [STACK_END, STACK_BASE, RAM_BASE, RAM_SIZE, ROM_BASE, ROM_SIZE,
      STACK_SIZE]; omega)]
  rfl

/-- `Memory::write_u16` of a word lying inside the stack region. -/
theorem write_u16_stack (mem : Memory) (a v : Nat) (h1 : 0xDFFF < a) (h2 : a + 1 ≤ 0xEFFF) :
    Memory.write_u16 mem a v =
      .ok { mem with stack := Function.update (Function.update mem.stack (a - 0xE000) (v % 256)) (a + 1 - 0xE000) ((v >>> 8) % 256) } := by
  unfold Memory.write_u16
  rw [write_u8_stack mem a (v % 256) h1 (by omega)]
  simp only [Bind.bind, Except.bind]
  rw [if_neg (by omega), write_u8_stack _ (a + 1) _ (by omega) (by omega)]
  simp [Nat.mod_mod_of_dvd]

/-- `Memory::read_u16` of a word lying inside the stack region. -/
theorem read_u16_stack (mem : Memory) (a : Nat) (h1 : 0xDFFF < a) (h2 : a + 1 ≤ 0xEFFF) :
    Memory.read_u16 mem a =
      .ok ((mem.stack (a + 1 - 0xE000) % 256) <<< 8 ||| mem.stack (a - 0xE000) % 256) := by
  unfold Memory.read_u16
  rw [if_neg (by omega), read_u8_stack mem (a + 1) (by omega) (by omega),
    read_u8_stack mem a h1 (by omega)]

end Legacy

/-! ## C1: reset behaviour -/

/-- Concrete machine mirroring the repository's own `test_reset` setup. -/
def c1m : Legacy.Machine := { registers := fun _ => 0x1234, flags := 0x56 }

/-- Memory whose reset-vector word at `0x7FFC` is `0xABCD`. -/
def c1mem : Legacy.Memory :=
  { rom := fun a => if a = 0x7FFC then 0xCD else if a = 0x7FFD then 0xAB else 0
    ram := fun _ => 0, stack := fun _ => 0, device := fun _ => 0 }

/-- C1, counterexample: after `Machine::reset` the flag word is `0`, not
the `InterruptDisabled`/`InterruptEnabled` bit `0x08`; `SP` is `0`, not
`STACK_END - 1 = 0xEFFE`; and `PC` is `0`, not the word stored at the
reset vector `0x7FFC` (here `0xABCD`). -/
theorem c1_counterexample :
    (Legacy.Machine.reset c1m).flags = 0 ∧
    Legacy.flagInterruptEnabled = 0x08 ∧
    (Legacy.Machine.reset c1m).flags ≠ 0x08 ∧
    (Legacy.Machine.reset c1m).registers Legacy.SP = 0 ∧
    (Legacy.Machine.reset c1m).registers Legacy.SP ≠ 0xEFFE ∧
    Legacy.Memory.read_u16 c1mem 0x7FFC = .ok 0xABCD ∧
    (Legacy.Machine.reset c1m).registers Legacy.PC = 0 ∧
    (Legacy.Machine.reset c1m).registers Legacy.PC ≠ 0xABCD := by
  refine ⟨rfl, rfl, by decide, rfl, by decide, rfl, rfl, by decide⟩

/-- C1, amended: `Machine::reset` zeroes the whole register file
(including `PC` at slot 14 and `SP` at slot 15) and clears the flag
word; no reset-vector load happens.  The initial `PC = ROM_BASE` and
`SP = STACK_BASE` come from `Machine::new` alone. -/
theorem c1_reset_clears_everything (m : Legacy.Machine) (i : Nat) :
    (Legacy.Machine.reset m).registers i = 0 ∧
    (Legacy.Machine.reset m).flags = 0 ∧
    Legacy.Machine.new.registers Legacy.PC = Legacy.ROM_BASE ∧
    Legacy.Machine.new.registers Legacy.SP = Legacy.STACK_BASE := by
  refine ⟨rfl, rfl, rfl, by decide⟩

/-! ## C2: opcode byte decoding and HLT -/

/-- Observation of one step: `some` of the Halt flag of the resulting
machine, or `none` when the step panics. -/
def haltFlagAfterStep (m : Legacy.Machine) (mem : Legacy.Memory) : Option Bool :=
  match Legacy.step m mem with
  | .ok r => some (r.1.get_flag Legacy.flagHalt)
  | .error _ => none

/-- ROM whose byte at the entry point is `0x01`. -/
def c2mem : Legacy.Memory :=
  { rom := fun a => if a = 0 then 0x01 else 0
    ram := fun _ => 0, stack := fun _ => 0, device := fun _ => 0 }

/-- C2, counterexample: from the freshly constructed machine (`PC = 0`)
with the byte `0x01` at `PC`, one step completes without setting the
Halt flag — `0x01 >> 3 = 0` decodes to `NOP`, not `HLT`. -/
theorem c2_counterexample :
    Legacy.Memory.read_u8 c2mem (Legacy.Machine.new.registers Legacy.PC) = 0x01 ∧
    haltFlagAfterStep Legacy.Machine.new c2mem = some false := by
  exact ⟨rfl, rfl⟩

/-- Setting the Halt bit makes `get_flag` see it. -/
theorem get_flag_set_flag_halt (m : Legacy.Machine) :
    (m.set_flag Legacy.flagHalt true).get_flag Legacy.flagHalt = true := by
  have hbit : Nat.testBit 128 7 = true := by decide
  simp only [Legacy.Machine.set_flag, Legacy.Machine.get_flag, Legacy.flagHalt, if_pos]
  rw [bne_iff_ne]
  intro hc
  have h7 := congrArg (fun n => Nat.testBit n 7) hc
  simp [Nat.testBit_and, Nat.testBit_or, hbit] at h7

/-- C2, amended: `Machine::step` decodes the opcode as the fetched byte
shifted right by three; whenever that quotient is `1` (bytes
`0x08`..`0x0F`) the step executes `HLT` and sets the Halt flag.  The
byte `0x01` instead decodes to `NOP` (see the counterexample). -/
theorem c2_hlt_sets_halt (m : Legacy.Machine) (mem : Legacy.Memory)
    (h : Legacy.Memory.read_u8 mem (m.registers Legacy.PC) >>> 3 = 1) :
    haltFlagAfterStep m mem = some true := by
  unfold haltFlagAfterStep Legacy.step
  simp only [Legacy.fetch_u8, h, Legacy.Opcode.ofByte]
  norm_num [List.contains]
  rw [if_neg (by decide), if_pos (by decide)]
  simp [Bind.bind, Except.bind, get_flag_set_flag_halt]

/-- C2 witness: byte `0x08` (`0x08 >> 3 = 1`) halts the fresh machine. -/
def c2memW : Legacy.Memory :=
  { rom := fun a => if a = 0 then 0x08 else 0
    ram := fun _ => 0, stack := fun _ => 0, device := fun _ => 0 }

theorem c2_hlt_sets_halt_witness :
    haltFlagAfterStep Legacy.Machine.new c2memW = some true :=
  c2_hlt_sets_halt Legacy.Machine.new c2memW (by decide)

/-! ## C3: DIV with zero divisor -/

/-- All-zero machine about to execute `DIV R1, R0` with `R0 = 0`. -/
def c3m : Legacy.Machine := { registers := fun _ => 0, flags := 0 }

/-- ROM bytes `0x40 0x10`: opcode byte `0x40` decodes (via `>> 3`) to
`DIV`, register byte `0x10` selects `dest = R1`, `orig = R0`. -/
def c3mem : Legacy.Memory :=
  { rom := fun a => if a = 0 then 0x40 else if a = 1 then 0x10 else 0
    ram := fun _ => 0, stack := fun _ => 0, device := fun _ => 0 }

/-- C3: executing `DIV R1, R0` with a zero divisor makes
`Machine::step` abort through `u16::overflowing_div` (a divide-by-zero
panic).  `Machine::step` returns `()` in the source and has no error
channel at all, so no `VMError::DivideByZero` is ever produced and no
flags or registers survive to be observed. -/
theorem c3_div_by_zero_panics :
    Legacy.step c3m c3mem = .error .divByZero := by
  rfl

/-! ## C4 and C7: stack discipline -/

/-- `SP` after a successful `push_u16`. -/
def pushSPAfter (m : Legacy.Machine) (mem : Legacy.Memory) (v : Nat) : Option Nat :=
  match Legacy.push_u16 m mem v with
  | .ok r => some (r.1.registers Legacy.SP)
  | .error _ => none

/-- Reading back the word at the pre-push `SP` from the post-push
memory. -/
def pushReadBack (m : Legacy.Machine) (mem : Legacy.Memory) (v : Nat) :
    Option (Except Panic Nat) :=
  match Legacy.push_u16 m mem v with
  | .ok r => some (Legacy.Memory.read_u16 r.2 (m.registers Legacy.SP))
  | .error _ => none

/-- `SP` after a successful `pull_u16`. -/
def pullSPAfter (m : Legacy.Machine) (mem : Legacy.Memory) : Option Nat :=
  match Legacy.pull_u16 m mem with
  | .ok r => some (r.2.registers Legacy.SP)
  | .error _ => none

/-- The value a successful `pull_u16` returns. -/
def pullValue (m : Legacy.Machine) (mem : Legacy.Memory) : Option Nat :=
  match Legacy.pull_u16 m mem with
  | .ok r => some r.1
  | .error _ => none

/-- Writing a 16-bit word inside the stack region of the flat memory
and reading it back at the same address recovers the value. -/
theorem stack_word_roundtrip (mem : Legacy.Memory) (a v : Nat) (hv : v < 65536)
    (h1 : 0xDFFF < a) (h2 : a + 1 ≤ 0xEFFF) :
    ∃ mem2, Legacy.Memory.write_u16 mem a v = .ok mem2 ∧
      Legacy.Memory.read_u16 mem2 a = .ok v := by
  refine ⟨_, Legacy.write_u16_stack mem a v h1 h2, ?_⟩
  rw [Legacy.read_u16_stack _ a h1 h2]
  simp only [Function.update_same,
    Function.update_noteq (show a - 0xE000 ≠ a + 1 - 0xE000 by omega)]
  rw [Nat.mod_mod_of_dvd _ (dvd_refl 256), Nat.mod_mod_of_dvd _ (dvd_refl 256),
    lorBytes _ _ (Nat.mod_lt _ (by norm_num)), recomposeBytes v hv]

/-- C4, counterexample: from the freshly constructed machine
(`SP = STACK_BASE = 0xE000`) over zeroed memory, `push_u16` succeeds and
moves `SP` up to `0xE002` — it does not decrement, and no overflow
check exists; `pull_u16` on the same empty stack does not fail with an
underflow error but succeeds, moving `SP` down to `0xDFFE` (into RAM)
and returning `0`. -/
theorem c4_counterexample :
    Legacy.Machine.new.registers Legacy.SP = 0xE000 ∧
    pushSPAfter Legacy.Machine.new Legacy.Memory.new 0xABCD = some 0xE002 ∧
    pushSPAfter Legacy.Machine.new Legacy.Memory.new 0xABCD ≠ some 0xDFFE ∧
    pullSPAfter Legacy.Machine.new Legacy.Memory.new = some 0xDFFE ∧
    pullValue Legacy.Machine.new Legacy.Memory.new = some 0 := by
  refine ⟨by decide, rfl, by decide, rfl, rfl⟩

/-- C4, amended: the stack is empty-ascending and unchecked.
`push_u16 v` writes the 16-bit word `v` little-endian at the old `SP`
and then increments `SP` by two; `pull_u16` decrements `SP` by two and
then reads the word there.  Neither operation performs an overflow or
underflow check: under the addressing hypotheses shown they always
succeed. -/
theorem c4_stack_is_empty_ascending_unchecked (m : Legacy.Machine) (mem : Legacy.Memory)
    (v : Nat) :
    (v < 65536 → 0xE000 ≤ m.registers Legacy.SP → m.registers Legacy.SP + 1 ≤ 0xEFFF →
      pushSPAfter m mem v = some (m.registers Legacy.SP + 2) ∧
      pushReadBack m mem v = some (.ok v)) ∧
    (2 ≤ m.registers Legacy.SP → m.registers Legacy.SP < 65536 →
      pullSPAfter m mem = some (m.registers Legacy.SP - 2) ∧
      pullValue m mem = (Legacy.Memory.read_u16 mem (m.registers Legacy.SP - 2)).toOption) := by
  constructor
  · intro hv h1 h2
    have hsp : m.registers Legacy.SP + 2 < 65536 := by omega
    obtain ⟨mem2, hw, hr⟩ :=
      stack_word_roundtrip mem (m.registers Legacy.SP) v hv (by omega) (by omega)
    constructor
    · unfold pushSPAfter Legacy.push_u16
      rw [hw]
      simp [Bind.bind, Except.bind, Function.update_same, Nat.mod_eq_of_lt hsp]
    · unfold pushReadBack Legacy.push_u16
      rw [hw]
      simp [Bind.bind, Except.bind, hr]
  · intro h1 h2
    have hs : (m.registers Legacy.SP + 65534) % 65536 = m.registers Legacy.SP - 2 := by omega
    constructor
    · unfold pullSPAfter Legacy.pull_u16
      rw [hs]
      unfold Legacy.Memory.read_u16
      rw [if_neg (by omega)]
      simp [Bind.bind, Except.bind, Function.update_same]
    · unfold pullValue Legacy.pull_u16
      rw [hs]
      unfold Legacy.Memory.read_u16
      rw [if_neg (by omega)]
      simp [Bind.bind, Except.bind, Except.toOption]

/-- C4 witness: the amended statement instantiated at the fresh machine
(`SP = 0xE000`), zeroed memory and the value `0x1234`. -/
theorem c4_stack_is_empty_ascending_unchecked_witness :
    (pushSPAfter Legacy.Machine.new Legacy.Memory.new 0x1234 = some 0xE002 ∧
      pushReadBack Legacy.Machine.new Legacy.Memory.new 0x1234 = some (.ok 0x1234)) ∧
    (pullSPAfter Legacy.Machine.new Legacy.Memory.new = some 0xDFFE ∧
      pullValue Legacy.Machine.new Legacy.Memory.new =
        (Legacy.Memory.read_u16 Legacy.Memory.new 0xDFFE).toOption) := by
  have h := c4_stack_is_empty_ascending_unchecked Legacy.Machine.new Legacy.Memory.new 0x1234
  exact ⟨h.1 (by norm_num) (by decide) (by decide), h.2 (by decide) (by decide)⟩

/-- The value popped right after a push, together with the final `SP`. -/
def pushThenPull (m : Legacy.Machine) (mem : Legacy.Memory) (v : Nat) : Option (Nat × Nat) :=
  match Legacy.push_u16 m mem v with
  | .ok r =>
    match Legacy.pull_u16 r.1 r.2 with
    | .ok s => some (s.1, s.2.registers Legacy.SP)
    | .error _ => none
  | .error _ => none

/-- C7: for every 16-bit value and every state whose `SP` places both
bytes of the word inside the stack region, `push_u16 v` followed by
`pull_u16` succeeds, returns `v`, and leaves `SP` at its pre-push
value. -/
theorem c7_push_pull_roundtrip (m : Legacy.Machine) (mem : Legacy.Memory) (v : Nat)
    (hv : v < 65536) (h1 : 0xE000 ≤ m.registers Legacy.SP)
    (h2 : m.registers Legacy.SP + 1 ≤ 0xEFFF) :
    pushThenPull m mem v = some (v, m.registers Legacy.SP) := by
  obtain ⟨mem2, hw, hr⟩ :=
    stack_word_roundtrip mem (m.registers Legacy.SP) v hv (by omega) (by omega)
  unfold pushThenPull Legacy.push_u16
  rw [hw]
  simp only [Bind.bind, Except.bind]
  unfold Legacy.pull_u16
  simp only [Function.update_same]
  have hsp2 : ((m.registers Legacy.SP + 2) % 65536 + 65534) % 65536 =
      m.registers Legacy.SP := by omega
  rw [hsp2, hr]
  simp [Bind.bind, Except.bind, Function.update_same]

/-- C7 witness: the roundtrip at the fresh machine with value `0xBEEF`. -/
theorem c7_push_pull_roundtrip_witness :
    pushThenPull Legacy.Machine.new Legacy.Memory.new 0xBEEF = some (0xBEEF, 0xE000) :=
  c7_push_pull_roundtrip Legacy.Machine.new Legacy.Memory.new 0xBEEF
    (by norm_num) (by decide) (by decide)

/-! ## C5: word access at the stack/MMIO seam -/

/-- C5: `MemoryBus::read_u16 (0xEFFF)` and `MemoryBus::write_u16 (0xEFFF)`
take the stack branch (which checks only `addr`, not `addr + 1`) and
then index `Stack::data[0x1000]`, one past the end of the
`0x1000`-byte array: an out-of-bounds panic, not a returned
`MemoryError`. -/
theorem c5_stack_seam_word_access_panics :
    Bus.MemoryBus.read_u16 Bus.MemoryBus.new 0xEFFF = .error (.panic .indexOutOfBounds) ∧
    Bus.MemoryBus.write_u16 Bus.MemoryBus.new 0xEFFF 0x1234 =
      .error (.panic .indexOutOfBounds) := by
  exact ⟨rfl, rfl⟩

/-! ## C6: ROM writes rejected -/

/-- C6: for every bus state, ROM address and value, `MemoryBus::write_u8`
returns `WriteNotPermitted` (the guard fires before anything is
touched, so the returned error carries the address and the bus value is
discarded unchanged). -/
theorem c6_rom_write_not_permitted (b : Bus.MemoryBus) (a v : Nat) (h : a ≤ 0x7FFF) :
    Bus.MemoryBus.write_u8 b a v = .error (.mem (.writeNotPermitted a)) := by
  unfold Bus.MemoryBus.write_u8
  rw [if_pos]
  constructor
  · exact Nat.zero_le a
  · simp only [Bus.ROM_END, Bus.ROM_BASE, Bus.ROM_SIZE]; omega

/-- C6 witness: a concrete ROM write on the fresh bus. -/
theorem c6_rom_write_not_permitted_witness :
    Bus.MemoryBus.write_u8 Bus.MemoryBus.new 0x0100 0xAB =
      .error (.mem (.writeNotPermitted 0x0100)) :=
  c6_rom_write_not_permitted Bus.MemoryBus.new 0x0100 0xAB (by norm_num)

/-! ## C8: assembling PLR -/

/-- The first two bytes of the output image of a successful assembly. -/
def firstTwoBytes (r : Except Casm.AssembleError Casm.Assembler) : Option (Nat × Nat) :=
  match r with
  | .ok a => some (a.output 0, a.output 1)
  | .error _ => none

/-- C8: the token stream of the source line `PLR R0` parses — through
the `Token::Plr` arm of `parse_instruction` — into `Instruction::Phr`,
so the assembled image starts with `0x17 0x00` (the PHR encoding), not
`0x18 0x00`.  The `Instruction::Plr` arm of `generate_instruction`
would emit `0x18`, but the parser never produces that constructor. -/
theorem c8_plr_assembles_as_phr :
    Casm.parse_instruction [Casm.Token.plr, Casm.Token.register 0] =
      .ok (Casm.Instruction.phr (Casm.Operand.register 0), []) ∧
    firstTwoBytes (Casm.assemble
      { statements := [Casm.Statement.instruction (Casm.Instruction.phr (Casm.Operand.register 0))]
        aliases := [], labels := [] }) = some (0x17, 0) ∧
    firstTwoBytes (Casm.assemble
      { statements := [Casm.Statement.instruction (Casm.Instruction.plr (Casm.Operand.register 0))]
        aliases := [], labels := [] }) = some (0x18, 0) := by
  exact ⟨rfl, rfl, rfl⟩

/-! ## C9: bounded alias resolution -/

/-- `k` successful alias-lookup hops from one operand to another. -/
inductive AliasSteps (al : List (String × Casm.Operand)) :
    Casm.Operand → Nat → Casm.Operand → Prop where
  | refl (op : Casm.Operand) : AliasSteps al op 0 op
  | step (n : String) (opn opb : Casm.Operand) (k : Nat)
      (h : Casm.lookupOperand al n = some opn)
      (hc : AliasSteps al opn k opb) :
      AliasSteps al (.alias n) (k + 1) opb

/-- A base operand: one that alias resolution can stop at without
consulting the label table. -/
def isBaseOperand : Casm.Operand → Bool
  | .register _ => true
  | .registerIndirect _ => true
  | .literal _ => true
  | _ => false

/-- The size class `resolve_operand_for_size` assigns to a base
operand. -/
def classifySize : Casm.Operand → Casm.ResolvedOperandType
  | .register _ => .registerLike
  | .registerIndirect _ => .registerLike
  | _ => .literalLike

theorem resolve_fully_go_ok_of_chain (al : List (String × Casm.Operand))
    (lb : List (String × Nat)) {k : Nat} {op base : Casm.Operand}
    (hs : AliasSteps al op k base) (hbase : isBaseOperand base = true) :
    ∀ f, k < f → Casm.resolveFullyGo al lb f op = .ok base := by
  induction hs with
  | refl op =>
    intro f hf
    cases f with
    | zero => omega
    | succ f2 => cases op <;> simp_all [Casm.resolveFullyGo, isBaseOperand]
  | step n opn opb k hlook hsub ih =>
    intro f hf
    cases f with
    | zero => omega
    | succ f2 =>
      simp only [Casm.resolveFullyGo, hlook]
      exact ih hbase f2 (by omega)

theorem resolve_fully_go_depth_err (al : List (String × Casm.Operand))
    (lb : List (String × Nat)) {j : Nat} {op op2 : Casm.Operand}
    (hs : AliasSteps al op j op2) :
    Casm.resolveFullyGo al lb j op = .error .depthExceeded := by
  induction hs with
  | refl op => rfl
  | step n opn opb k hlook hsub ih =>
    simp only [Casm.resolveFullyGo, hlook]
    exact ih

theorem resolve_size_go_ok_of_chain (al : List (String × Casm.Operand))
    {k : Nat} {op base : Casm.Operand}
    (hs : AliasSteps al op k base) (hbase : isBaseOperand base = true) :
    ∀ f, k < f → Casm.resolveForSizeGo al f op = .ok (classifySize base) := by
  induction hs with
  | refl op =>
    intro f hf
    cases f with
    | zero => omega
    | succ f2 => cases op <;> simp_all [Casm.resolveForSizeGo, isBaseOperand, classifySize]
  | step n opn opb k hlook hsub ih =>
    intro f hf
    cases f with
    | zero => omega
    | succ f2 =>
      simp only [Casm.resolveForSizeGo, hlook]
      exact ih hbase f2 (by omega)

theorem resolve_size_go_depth_err (al : List (String × Casm.Operand))
    {j : Nat} {op op2 : Casm.Operand} (hs : AliasSteps al op j op2) :
    Casm.resolveForSizeGo al j op = .error .depthExceededSize := by
  induction hs with
  | refl op => rfl
  | step n opn opb k hlook hsub ih =>
    simp only [Casm.resolveForSizeGo, hlook]
    exact ih

/-- C9: alias resolution (both the sizing and the emission resolver,
which are total functions here, so they terminate on every input) is
bounded by depth 10: a chain of at most 10 alias indirections reaching a
base operand resolves to that operand (respectively to its size class),
while any operand from which 11 alias hops are possible — in particular
any operand on an alias cycle — yields the depth-exceeded error. -/
theorem c9_alias_resolution_bounded (al : List (String × Casm.Operand))
    (lb : List (String × Nat)) (op : Casm.Operand) :
    (∀ base k, AliasSteps al op k base → k ≤ 10 → isBaseOperand base = true →
      Casm.resolve_operand_fully al lb op 0 = .ok base ∧
      Casm.resolve_operand_for_size al op 0 = .ok (classifySize base)) ∧
    (∀ op2, AliasSteps al op 11 op2 →
      Casm.resolve_operand_fully al lb op 0 = .error .depthExceeded ∧
      Casm.resolve_operand_for_size al op 0 = .error .depthExceededSize) := by
  constructor
  · intro base k hs hk hbase
    constructor
    · show Casm.resolveFullyGo al lb (Casm.MAX_ALIAS_DEPTH + 1 - 0) op = _
      exact resolve_fully_go_ok_of_chain al lb hs hbase _ (by simp [Casm.MAX_ALIAS_DEPTH]; omega)
    · show Casm.resolveForSizeGo al (Casm.MAX_ALIAS_DEPTH + 1 - 0) op = _
      exact resolve_size_go_ok_of_chain al hs hbase _ (by simp [Casm.MAX_ALIAS_DEPTH]; omega)
  · intro op2 hs
    constructor
    · show Casm.resolveFullyGo al lb (Casm.MAX_ALIAS_DEPTH + 1 - 0) op = _
      exact resolve_fully_go_depth_err al lb hs
    · show Casm.resolveForSizeGo al (Casm.MAX_ALIAS_DEPTH + 1 - 0) op = _
      exact resolve_size_go_depth_err al hs

/-- A two-hop alias table and a one-entry cyclic alias table. -/
def aliasTableW : List (String × Casm.Operand) :=
  [("a", Casm.Operand.alias ("b")), ("b", Casm.Operand.literal 7)]

def aliasTableCyc : List (String × Casm.Operand) :=
  [("c", Casm.Operand.alias ("c"))]

/-- C9 witness: a two-hop chain resolves; the self-alias cycle hits the
depth error in both resolvers. -/
theorem c9_alias_resolution_bounded_witness :
    Casm.resolve_operand_fully aliasTableW [] (Casm.Operand.alias ("a")) 0 =
      .ok (Casm.Operand.literal 7) ∧
    Casm.resolve_operand_fully aliasTableCyc [] (Casm.Operand.alias ("c")) 0 =
      .error .depthExceeded ∧
    Casm.resolve_operand_for_size aliasTableCyc (Casm.Operand.alias ("c")) 0 =
      .error .depthExceededSize := by
  have hla : Casm.lookupOperand aliasTableW ("a") = some (Casm.Operand.alias ("b")) := rfl
  have hlb : Casm.lookupOperand aliasTableW ("b") = some (Casm.Operand.literal 7) := rfl
  have hchain : AliasSteps aliasTableW (Casm.Operand.alias ("a")) 2 (Casm.Operand.literal 7) :=
    .step ("a") (Casm.Operand.alias ("b")) (Casm.Operand.literal 7) 1 hla
      (.step ("b") (Casm.Operand.literal 7) (Casm.Operand.literal 7) 0 hlb
        (.refl (Casm.Operand.literal 7)))
  have hlc : Casm.lookupOperand aliasTableCyc ("c") = some (Casm.Operand.alias ("c")) := rfl
  have hcyc : AliasSteps aliasTableCyc (Casm.Operand.alias ("c")) 11 (Casm.Operand.alias ("c")) :=
    .step ("c") _ _ 10 hlc (.step ("c") _ _ 9 hlc (.step ("c") _ _ 8 hlc (.step ("c") _ _ 7 hlc
      (.step ("c") _ _ 6 hlc (.step ("c") _ _ 5 hlc (.step ("c") _ _ 4 hlc (.step ("c") _ _ 3 hlc
        (.step ("c") _ _ 2 hlc (.step ("c") _ _ 1 hlc (.step ("c") _ _ 0 hlc
          (.refl (Casm.Operand.alias ("c")))))))))))))
  refine ⟨?_, ?_, ?_⟩
  · exact (((c9_alias_resolution_bounded aliasTableW [] (Casm.Operand.alias ("a"))).1)
      (Casm.Operand.literal 7) 2 hchain (by omega) rfl).1
  · exact (((c9_alias_resolution_bounded aliasTableCyc [] (Casm.Operand.alias ("c"))).2)
      (Casm.Operand.alias ("c")) hcyc).1
  · exact (((c9_alias_resolution_bounded aliasTableCyc [] (Casm.Operand.alias ("c"))).2)
      (Casm.Operand.alias ("c")) hcyc).2

/-! ## C10: emission past the 0x8000-byte output image -/

/-- Final cursor of a successful assembly. -/
def cursorAfter (r : Except Casm.AssembleError Casm.Assembler) : Option Nat :=
  match r with
  | .ok a => some a.current_address
  | .error _ => none

/-- C10, counterexample: a program consisting only of `.org 0x9000`
places the emission cursor at `0x9000 ≥ 0x8000` (into RAM), yet both
passes complete without any panic or error, because nothing is ever
emitted at the relocated cursor. -/
theorem c10_counterexample :
    cursorAfter (Casm.assemble
      { statements := [Casm.Statement.directive ("org") (Casm.Operand.literal 0x9000)]
        aliases := [], labels := [] }) = some 0x9000 := by
  rfl

/-- C10, amended: the output image is a fixed `0x8000`-byte buffer and
`emit_byte` indexes it with the unchecked cursor, so emitting any byte
while the cursor is at or past `0x8000` is an out-of-bounds panic, not
an assembler error; a full assembly that relocates via `.org 0x8000`
and then emits data panics this way.  (Merely placing the cursor past
the image, with nothing emitted after, does not panic — see the
counterexample.) -/
theorem c10_emit_past_image_panics :
    (∀ (a : Casm.Assembler) (byte : Nat), 0x8000 ≤ a.current_address →
      Casm.emit_byte a byte = .error (.panic .indexOutOfBounds)) ∧
    Casm.assemble
      { statements := [Casm.Statement.directive ("org") (Casm.Operand.literal 0x8000),
          Casm.Statement.directive ("word") (Casm.Operand.literal 0)]
        aliases := [], labels := [] } = .error (.panic .indexOutOfBounds) := by
  constructor
  · intro a byte h
    unfold Casm.emit_byte
    rw [if_neg (by omega)]
  · rfl

/-- C10 witness: `emit_byte` with the cursor at `0x9000`. -/
def assemblerPastImage : Casm.Assembler := { output := fun _ => 0, current_address := 0x9000 }

theorem c10_emit_past_image_panics_witness :
    Casm.emit_byte assemblerPastImage 5 = .error (.panic .indexOutOfBounds) :=
  c10_emit_past_image_panics.1 assemblerPastImage 5 (by norm_num [assemblerPastImage])

end Cupana
